import Mathlib

/-!
Verification development for the GitHub MCP server (`src/server.py`).

The server exposes three GitHub read-only tools behind a JSON-RPC dispatcher:
`handle_call_tool` executes a tool against one upstream HTTP outcome, and
`handle_mcp_request` routes a parsed JSON-RPC envelope.  We shallowly embed
both routines: JSON values are an inductive type, the single upstream HTTP
call made by each tool executor is an explicit `UpstreamOutcome` parameter,
and Python exceptions are an `Except String` layer (the string is the
exception text `str(e)`).
-/

/-- JSON values as parsed by Python's `json` module (`response.json()` /
`request.json()`).  Numbers are modelled as integers (the server only ever
inspects the GitHub `size` field and JSON-RPC ids); `null` doubles as
Python's `None`, exactly as `json.loads` maps JSON null to `None`. -/
inductive JsonVal where
  | null : JsonVal
  | bool (b : Bool) : JsonVal
  | num (n : Int) : JsonVal
  | str (s : String) : JsonVal
  | arr (items : List JsonVal) : JsonVal
  | obj (fields : List (String × JsonVal)) : JsonVal
deriving Repr

/-- Python `v == s` for a parsed-JSON value against a string literal (the only
equality the server performs on request data): true exactly when `v` is that
string. -/
def isStrEq (v : JsonVal) (s : String) : Bool :=
  match v with
  | .str t => t == s
  | _ => false

/-- Python `d.get(k)` on a dict: first binding of `k`, if any.  Server dicts
come from `json.loads`, whose keys are unique. -/
def dictGet (kvs : List (String × JsonVal)) (k : String) : Option JsonVal :=
  (kvs.find? (fun kv => kv.1 == k)).map (·.2)

/-- Python `d.get(k, default)`. -/
def dictGetD (kvs : List (String × JsonVal)) (k : String) (default : JsonVal) : JsonVal :=
  (dictGet kvs k).getD default

/-- Python truthiness of a parsed-JSON value (`if not path`): `None`, `False`,
`0`, `""`, `[]` and `{}` are falsy, everything else truthy. -/
def pyTruthy : JsonVal → Bool
  | .null => false
  | .bool b => b
  | .num n => n != 0
  | .str s => !(s == "")
  | .arr items => !items.isEmpty
  | .obj fields => !fields.isEmpty

/-- Python `x == 0` for a parsed-JSON value (used by `data.get("size", 0) == 0`):
`0`, `0.0` and `False` compare equal to `0`; nothing else does. -/
def pyEqZero : JsonVal → Bool
  | .num n => n == 0
  | .bool b => !b
  | _ => false

mutual
/-- Python `repr` of a parsed-JSON value, as used when an f-string
interpolates a list or dict.  Escaping of special characters inside string
reprs is not modelled (no claim depends on it). -/
def pyRepr : JsonVal → String
  | .null => "None"
  | .bool b => if b then "True" else "False"
  | .num n => toString n
  | .str s => "'" ++ s ++ "'"
  | .arr items => "[" ++ pyReprItems items ++ "]"
  | .obj fields => "\x7b" ++ pyReprFields fields ++ "\x7d"

def pyReprItems : List JsonVal → String
  | [] => ""
  | [x] => pyRepr x
  | x :: y :: rest => pyRepr x ++ ", " ++ pyReprItems (y :: rest)

def pyReprFields : List (String × JsonVal) → String
  | [] => ""
  | [kv] => "'" ++ kv.1 ++ "': " ++ pyRepr kv.2
  | kv :: kv2 :: rest => "'" ++ kv.1 ++ "': " ++ pyRepr kv.2 ++ ", " ++ pyReprFields (kv2 :: rest)
end

/-- Python `str` of a parsed-JSON value, the f-string interpolation `{x}`:
strings render as themselves, everything else as its repr. -/
def pyStr : JsonVal → String
  | .str s => s
  | v => pyRepr v

/-- Python's type name for a parsed-JSON value, as it appears in
`AttributeError` / `TypeError` messages. -/
def pyTypeName : JsonVal → String
  | .null => "NoneType"
  | .bool _ => "bool"
  | .num _ => "int"
  | .str _ => "str"
  | .arr _ => "list"
  | .obj _ => "dict"

/-- Python `needle in hay` on strings: substring test. -/
def strContains (hay needle : String) : Bool :=
  hay.data.tails.any (fun t => needle.data.isPrefixOf t)

/-- Python `x or y` on parsed-JSON values (`path or 'root'`). -/
def pyOr (x y : JsonVal) : JsonVal :=
  if pyTruthy x then x else y

/-- Value of one base64 alphabet character, `none` for anything else. -/
def b64Val (c : Char) : Option Nat :=
  if 'A' ≤ c ∧ c ≤ 'Z' then some (c.toNat - 'A'.toNat)
  else if 'a' ≤ c ∧ c ≤ 'z' then some (c.toNat - 'a'.toNat + 26)
  else if '0' ≤ c ∧ c ≤ '9' then some (c.toNat - '0'.toNat + 52)
  else if c = '+' then some 62
  else if c = '/' then some 63
  else none

/-- Bytes of a final partial base64 quantum terminated by padding: 2 data
characters give 1 byte, 3 give 2 bytes. -/
def b64EmitPartial (quad : List Nat) : List Nat :=
  match quad with
  | [a, b] => [(a * 4 + b / 16) % 256]
  | [a, b, c] => [(a * 4 + b / 16) % 256, (b % 16 * 16 + c / 4) % 256]
  | _ => []

/-- Scanner of CPython's non-strict `binascii.a2b_base64`: walks the
characters keeping the output bytes so far, the current quantum's 6-bit
values (at most 3) and the count of pending pads.  Characters outside the
alphabet are discarded; a `=` is ignored while the quantum has fewer than 2
data characters, and once padding completes the quantum (3 data characters
and one `=`, or 2 and two `=`) decoding ends and the rest of the input is
ignored.  At end of input, 1 leftover data character is the
"cannot be 1 more than a multiple of 4" error and 2 or 3 without completed
padding are `binascii.Error("Incorrect padding")`. -/
def b64ScanLoop : List Char → List Nat → List Nat → Nat → Except String (List Nat)
  | [], out, quad, _pads =>
    match quad.length with
    | 0 => .ok out
    | 1 => .error "Invalid base64-encoded string: number of data characters cannot be 1 more than a multiple of 4"
    | _ => .error "Incorrect padding"
  | ch :: rest, out, quad, pads =>
    if ch = '=' then
      if 2 ≤ quad.length ∧ 4 ≤ quad.length + pads + 1 then
        .ok (out ++ b64EmitPartial quad)
      else if 2 ≤ quad.length then
        b64ScanLoop rest out quad (pads + 1)
      else
        b64ScanLoop rest out quad pads
    else
      match b64Val ch with
      | none => b64ScanLoop rest out quad pads
      | some v =>
        match quad with
        | [a, b, c] =>
          b64ScanLoop rest (out ++ [(a * 4 + b / 16) % 256, (b % 16 * 16 + c / 4) % 256,
            (c % 4 * 64 + v) % 256]) [] 0
        | q => b64ScanLoop rest out (q ++ [v]) 0

/-- Python `base64.b64decode` on a str argument (default, non-validating
mode): the string is first encoded as ASCII (a non-ASCII character raises
`ValueError`), then decoded by the non-strict scanner `b64ScanLoop` —
characters outside the base64 alphabet are discarded, a completed trailing
pad group ends decoding with the remainder ignored, and incomplete final
quanta raise `binascii.Error`.  Errors carry the exception text `str(e)`. -/
def b64decode (s : String) : Except String (List Nat) :=
  if s.data.all (fun c => c.toNat < 128) then
    b64ScanLoop s.data [] [] 0
  else
    .error "string argument should contain only ASCII characters"

/-- Strict UTF-8 decoding of a byte list, as Python's `bytes.decode("utf-8")`:
rejects invalid start bytes, truncated sequences, overlong encodings,
surrogates and code points beyond U+10FFFF. -/
def utf8Decode : List Nat → Option (List Char)
  | [] => some []
  | b :: rest =>
    if b < 0x80 then
      (utf8Decode rest).map (fun cs => Char.ofNat b :: cs)
    else if 0xC2 ≤ b ∧ b ≤ 0xDF then
      match rest with
      | c1 :: rest1 =>
        if 0x80 ≤ c1 ∧ c1 < 0xC0 then
          (utf8Decode rest1).map (fun cs => Char.ofNat ((b - 0xC0) * 64 + (c1 - 0x80)) :: cs)
        else none
      | [] => none
    else if 0xE0 ≤ b ∧ b ≤ 0xEF then
      match rest with
      | c1 :: c2 :: rest2 =>
        if 0x80 ≤ c1 ∧ c1 < 0xC0 ∧ 0x80 ≤ c2 ∧ c2 < 0xC0 then
          let cp := (b - 0xE0) * 4096 + (c1 - 0x80) * 64 + (c2 - 0x80)
          if cp < 0x800 ∨ (0xD800 ≤ cp ∧ cp ≤ 0xDFFF) then none
          else (utf8Decode rest2).map (fun cs => Char.ofNat cp :: cs)
        else none
      | _ => none
    else if 0xF0 ≤ b ∧ b ≤ 0xF4 then
      match rest with
      | c1 :: c2 :: c3 :: rest3 =>
        if 0x80 ≤ c1 ∧ c1 < 0xC0 ∧ 0x80 ≤ c2 ∧ c2 < 0xC0 ∧ 0x80 ≤ c3 ∧ c3 < 0xC0 then
          let cp := (b - 0xF0) * 262144 + (c1 - 0x80) * 4096 + (c2 - 0x80) * 64 + (c3 - 0x80)
          if cp < 0x10000 ∨ cp > 0x10FFFF then none
          else (utf8Decode rest3).map (fun cs => Char.ofNat cp :: cs)
        else none
      | _ => none
    else none

/-- Python `base64.b64decode(v).decode("utf-8")` applied to the JSON value stored
under `"content"`: a non-string argument raises `TypeError`, a bad base64
string raises `binascii.Error`, invalid UTF-8 raises `UnicodeDecodeError`
(whose position-specific message we do not reproduce verbatim). -/
def pyB64DecodeUtf8 (v : JsonVal) : Except String String :=
  match v with
  | .str s =>
    match b64decode s with
    | .error e => .error e
    | .ok bytes =>
      match utf8Decode bytes with
      | some cs => .ok (String.mk cs)
      | none => .error "'utf-8' codec can't decode the file content: invalid UTF-8 data"
  | v => .error ("argument should be a bytes-like object or ASCII string, not '" ++ pyTypeName v ++ "'")

/-- A run of `n` spaces, for `json.dumps` indentation. -/
def spaces (n : Nat) : String :=
  String.mk (List.replicate n ' ')

mutual
/-- Python `json.dumps(v, indent=2)` (line 181), with `ind` the indentation
of the enclosing container.  String escaping is not modelled (no claim
depends on the metadata branch's exact text). -/
def jsonDumps (v : JsonVal) (ind : Nat) : String :=
  match v with
  | .null => "null"
  | .bool b => if b then "true" else "false"
  | .num n => toString n
  | .str s => "\"" ++ s ++ "\""
  | .arr [] => "[]"
  | .arr (x :: xs) =>
      "[\n" ++ jsonDumpsItems (x :: xs) (ind + 2) ++ "\n" ++ spaces ind ++ "]"
  | .obj [] => "\x7b\x7d"
  | .obj (kv :: kvs) =>
      "\x7b\n" ++ jsonDumpsFields (kv :: kvs) (ind + 2) ++ "\n" ++ spaces ind ++ "\x7d"

def jsonDumpsItems : List JsonVal → Nat → String
  | [], _ => ""
  | [x], ind => spaces ind ++ jsonDumps x ind
  | x :: y :: rest, ind => spaces ind ++ jsonDumps x ind ++ ",\n" ++ jsonDumpsItems (y :: rest) ind

def jsonDumpsFields : List (String × JsonVal) → Nat → String
  | [], _ => ""
  | [kv], ind => spaces ind ++ "\"" ++ kv.1 ++ "\": " ++ jsonDumps kv.2 ind
  | kv :: kv2 :: rest, ind =>
      spaces ind ++ "\"" ++ kv.1 ++ "\": " ++ jsonDumps kv.2 ind ++ ",\n" ++
        jsonDumpsFields (kv2 :: rest) ind
end

/-- One `types.TextContent` item: `type` is always the literal `"text"`. -/
structure TextContent where
  type : String
  text : String
deriving DecidableEq, Repr

/-- Constructor `types.TextContent(type="text", text=s)`. -/
def textItem (s : String) : TextContent :=
  ⟨"text", s⟩

/-- Outcome of the single `await client.get(...)` each tool executor makes:
a delivered HTTP response (status code, raw body text, and the result of
`response.json()` — `none` when the body is not valid JSON, in which case
`.json()` raises `json.JSONDecodeError`), expiry of the 30-second timeout
(`httpx.TimeoutException`, carrying `str(e)`), or any other transport-level
exception (carrying `str(e)`). -/
inductive UpstreamOutcome where
  | response (status : Nat) (text : String) (json : Option JsonVal)
  | timeout (msg : String)
  | transportError (msg : String)

/-- Constant `GITHUB_API_BASE` (line 24). -/
def GITHUB_API_BASE : String := "https://api.github.com"

/-- URL requested by `list_repositories` (lines 88–91); `username` is
interpolated by the f-string, so a missing argument renders as `None`. -/
def listRepositoriesUrl (username : JsonVal) : String :=
  GITHUB_API_BASE ++ "/users/" ++ pyStr username ++ "/repos"

/-- Path normalization of `get_file_contents` (lines 110–112): an untruthy
`path` (e.g. the empty string) or the string `"/"` becomes `""`. -/
def normalizePath (path : JsonVal) : JsonVal :=
  if !pyTruthy path || isStrEq path "/" then .str "" else path

/-- URL requested by `get_file_contents` (lines 120–123), taking the
already-normalized path. -/
def getFileContentsUrl (owner repo path : JsonVal) : String :=
  GITHUB_API_BASE ++ "/repos/" ++ pyStr owner ++ "/" ++ pyStr repo ++ "/contents/" ++ pyStr path

/-- URL requested by `get_repository_info` (lines 205–208). -/
def getRepositoryInfoUrl (owner repo : JsonVal) : String :=
  GITHUB_API_BASE ++ "/repos/" ++ pyStr owner ++ "/" ++ pyStr repo

/-- The `list_repositories` branch of `handle_call_tool` (lines 80–103):
non-200 statuses produce the `Error: HTTP {status} - {body}` item, 200
passes the raw body through, and the blanket `except Exception` turns the
timeout or transport exception into `Error: {str(e)}`. -/
def list_repositories (username : JsonVal) (net : UpstreamOutcome) : List TextContent :=
  match net with
  | .response status text _ =>
    if status != 200 then
      [textItem ("Error: HTTP " ++ toString status ++ " - " ++ text)]
    else
      [textItem text]
  | .timeout m => [textItem ("Error: " ++ m)]
  | .transportError m => [textItem ("Error: " ++ m)]

/-- Python `item[k]` subscription with a string key, as applied to each
directory entry (line 151); raising is an `Except.error` carrying `str(e)`
(for a `KeyError` that is the repr of the key). -/
def pySubscript (item : JsonVal) (k : String) : Except String JsonVal :=
  match item with
  | .obj kvs =>
    match dictGet kvs k with
    | some v => .ok v
    | none => .error ("'" ++ k ++ "'")
  | .str _ => .error "string indices must be integers"
  | .arr _ => .error "list indices must be integers or slices, not str"
  | v => .error ("'" ++ pyTypeName v ++ "' object is not subscriptable")

/-- The list comprehension of lines 150–153: one `- {name} ({type})` line per
entry, failing with the first entry's subscription error if any. -/
def dirLines : List JsonVal → Except String (List String)
  | [] => .ok []
  | item :: rest =>
    match pySubscript item "name" with
    | .error e => .error e
    | .ok nameV =>
      match pySubscript item "type" with
      | .error e => .error e
      | .ok typeV =>
        match dirLines rest with
        | .error e => .error e
        | .ok lines => .ok (("- " ++ pyStr nameV ++ " (" ++ pyStr typeV ++ ")") :: lines)

/-- Body of the `try` block of `get_file_contents` (lines 119–182), given the
delivered response; an uncaught exception inside the block is an
`Except.error` carrying `str(e)`.  `path` is the already-normalized path. -/
def getFileContentsTry (owner repo path : JsonVal) (status : Nat) (text : String)
    (json? : Option JsonVal) : Except String (List TextContent) :=
  if status == 404 then
    .ok [textItem ("File not found: " ++ pyStr (pyOr path (.str "root")) ++ " in " ++
      pyStr owner ++ "/" ++ pyStr repo ++ ". The file may not exist or the repository may be private.")]
  else if status != 200 then
    .ok [textItem ("Error accessing file: HTTP " ++ toString status ++ ". " ++ text.take 200)]
  else
    match json? with
    | none => .ok [textItem ("Error: GitHub API returned invalid JSON. Response: " ++ text.take 500)]
    | some data =>
      match data with
      | .arr items =>
        match dirLines items with
        | .error e => .error e
        | .ok lines =>
          .ok [textItem ("Directory contents of " ++ pyStr (pyOr path (.str "root")) ++ ":\n" ++
            String.intercalate "\n" lines)]
      | .obj kvs =>
        if (dictGet kvs "content").isSome then
          if pyEqZero (dictGetD kvs "size" (.num 0)) then
            .ok [textItem ("File exists but is empty: " ++ pyStr path)]
          else
            match pyB64DecodeUtf8 ((dictGet kvs "content").getD .null) with
            | .ok content => .ok [textItem content]
            | .error e => .ok [textItem ("Error decoding file content: " ++ e)]
        else
          .ok [textItem (jsonDumps data 0)]
      | .str s =>
        if strContains s "content" then
          .error "'str' object has no attribute 'get'"
        else
          .ok [textItem (jsonDumps data 0)]
      | other => .error ("argument of type '" ++ pyTypeName other ++ "' is not iterable")

/-- The `get_file_contents` branch of `handle_call_tool` (lines 105–194):
normalizes the path, then handles the upstream outcome; the 30-second
timeout gets its dedicated message and any other exception from the `try`
block becomes `Error: {str(e)}`. -/
def get_file_contents (owner repo path0 : JsonVal) (net : UpstreamOutcome) : List TextContent :=
  let path := normalizePath path0
  match net with
  | .timeout _ =>
    [textItem ("Timeout accessing GitHub API for " ++ pyStr owner ++ "/" ++ pyStr repo ++ "/" ++ pyStr path)]
  | .transportError m => [textItem ("Error: " ++ m)]
  | .response status text json? =>
    match getFileContentsTry owner repo path status text json? with
    | .ok r => r
    | .error m => [textItem ("Error: " ++ m)]

/-- The `get_repository_info` branch of `handle_call_tool` (lines 196–220):
non-200 statuses produce `Error: HTTP {status} - {body[:200]}`, 200 passes
the raw body through, exceptions become `Error: {str(e)}`. -/
def get_repository_info (owner repo : JsonVal) (net : UpstreamOutcome) : List TextContent :=
  match net with
  | .response status text _ =>
    if status != 200 then
      [textItem ("Error: HTTP " ++ toString status ++ " - " ++ text.take 200)]
    else
      [textItem text]
  | .timeout m => [textItem ("Error: " ++ m)]
  | .transportError m => [textItem ("Error: " ++ m)]

/-- Function `handle_call_tool` (lines 74–223): routes on the tool name, reads the
arguments with `.get` (an `AttributeError` if `arguments` is not a dict —
the reads happen before each branch's `try`), and raises
`ValueError("Unknown tool: {name}")` for an unrecognized name.  The
`UpstreamOutcome` stands for the single HTTP call the chosen branch makes;
an `Except.error` is an exception escaping to the dispatcher. -/
def handle_call_tool (name arguments : JsonVal) (net : UpstreamOutcome) :
    Except String (List TextContent) :=
  if isStrEq name "list_repositories" then
    match arguments with
    | .obj kvs => .ok (list_repositories (dictGetD kvs "username" .null) net)
    | v => .error ("'" ++ pyTypeName v ++ "' object has no attribute 'get'")
  else if isStrEq name "get_file_contents" then
    match arguments with
    | .obj kvs =>
      .ok (get_file_contents (dictGetD kvs "owner" .null) (dictGetD kvs "repo" .null)
        (dictGetD kvs "path" (.str "")) net)
    | v => .error ("'" ++ pyTypeName v ++ "' object has no attribute 'get'")
  else if isStrEq name "get_repository_info" then
    match arguments with
    | .obj kvs => .ok (get_repository_info (dictGetD kvs "owner" .null) (dictGetD kvs "repo" .null) net)
    | v => .error ("'" ++ pyTypeName v ++ "' object has no attribute 'get'")
  else
    .error ("Unknown tool: " ++ pyStr name)

/-- One `types.Tool` of the catalog (lines 33–71). -/
structure ToolDef where
  name : String
  description : String
  inputSchema : JsonVal
deriving Repr

/-- Function `handle_list_tools` (lines 29–72): the fixed three-tool catalog, in
declaration order, with the literal input schemas. -/
def handle_list_tools : List ToolDef :=
  [ { name := "list_repositories"
    , description := "List all public repositories for a GitHub user"
    , inputSchema := .obj
        [ ("type", .str "object")
        , ("properties", .obj
            [ ("username", .obj
                [ ("type", .str "string")
                , ("description", .str "GitHub username") ]) ])
        , ("required", .arr [.str "username"]) ] }
  , { name := "get_file_contents"
    , description := "Get contents of a file from a GitHub repository. Can also list directory contents if path is a directory."
    , inputSchema := .obj
        [ ("type", .str "object")
        , ("properties", .obj
            [ ("owner", .obj
                [ ("type", .str "string")
                , ("description", .str "Repository owner username") ])
            , ("repo", .obj
                [ ("type", .str "string")
                , ("description", .str "Repository name") ])
            , ("path", .obj
                [ ("type", .str "string")
                , ("description", .str "File path in repository (use README.md for readme, / or empty for root listing)") ]) ])
        , ("required", .arr [.str "owner", .str "repo", .str "path"]) ] }
  , { name := "get_repository_info"
    , description := "Get detailed information about a GitHub repository including description, stars, topics, and language"
    , inputSchema := .obj
        [ ("type", .str "object")
        , ("properties", .obj
            [ ("owner", .obj
                [ ("type", .str "string")
                , ("description", .str "Repository owner username") ])
            , ("repo", .obj
                [ ("type", .str "string")
                , ("description", .str "Repository name") ]) ])
        , ("required", .arr [.str "owner", .str "repo"]) ] }
  ]

/-- The `required` array of a tool's `inputSchema`, read back from the
catalog: the parameters the schema flags as mandatory. -/
def requiredParams (tool : String) : List String :=
  match (handle_list_tools.find? (fun t => t.name == tool)).map ToolDef.inputSchema with
  | some (.obj kvs) =>
    match dictGet kvs "required" with
    | some (.arr items) => items.filterMap (fun v => match v with | .str s => some s | _ => none)
    | _ => []
  | _ => []

/-- A JSON-RPC error envelope as built by `handle_mcp_request`
(lines 305–312 and 316–323). -/
def errEnvelope (msgId : JsonVal) (code : Int) (msg : String) : JsonVal :=
  .obj [ ("jsonrpc", .str "2.0"), ("id", msgId)
       , ("error", .obj [("code", .num code), ("message", .str msg)]) ]

/-- What `handle_mcp_request` hands back to Starlette: a `JSONResponse` with
an HTTP status and a JSON body, or an exception escaping the handler itself
(which only happens when the `except` block re-raises; Starlette then
produces a 500 with no JSON-RPC envelope). -/
inductive HttpReply where
  | jsonResponse (status : Nat) (body : JsonVal)
  | unhandledFault (msg : String)
deriving Repr

/-- The `initialize` result object (lines 241–251). -/
def initResultVal : JsonVal :=
  .obj [ ("protocolVersion", .str "2024-11-05")
       , ("capabilities", .obj [("tools", .obj []), ("logging", .obj [])])
       , ("serverInfo", .obj [("name", .str "github-mcp-server"), ("version", .str "0.1.0")]) ]

/-- The `tools/list` result object (lines 261–274). -/
def toolsListResultVal : JsonVal :=
  .obj [ ("tools", .arr (handle_list_tools.map (fun tool =>
      .obj [ ("name", .str tool.name)
           , ("description", .str tool.description)
           , ("inputSchema", tool.inputSchema) ]))) ]

/-- Function `handle_mcp_request` (lines 226–323).  `body?` is the result of
`await request.json()` (`.error` = the parse exception's text).  A non-dict
JSON body makes `body.get("method")` raise `AttributeError`; the `except`
block then evaluates `body.get("id")`, which raises again and escapes the
handler (`unhandledFault`).  `net` is the upstream outcome consumed by
`handle_call_tool` when the request reaches it. -/
def handle_mcp_request (body? : Except String JsonVal) (net : UpstreamOutcome) : HttpReply :=
  match body? with
  | .error m => .jsonResponse 200 (errEnvelope .null (-32603) ("Internal error: " ++ m))
  | .ok body =>
    match body with
    | .obj kvs =>
      let method := dictGetD kvs "method" .null
      let msgId := dictGetD kvs "id" .null
      let params := dictGetD kvs "params" (.obj [])
      if isStrEq method "initialize" then
        .jsonResponse 200 (.obj [("jsonrpc", .str "2.0"), ("id", msgId), ("result", initResultVal)])
      else if isStrEq method "notifications/initialized" then
        .jsonResponse 200 (.obj [("jsonrpc", .str "2.0")])
      else if isStrEq method "tools/list" then
        .jsonResponse 200 (.obj [("jsonrpc", .str "2.0"), ("id", msgId), ("result", toolsListResultVal)])
      else if isStrEq method "tools/call" then
        match params with
        | .obj pkvs =>
          let toolName := dictGetD pkvs "name" .null
          let arguments := dictGetD pkvs "arguments" (.obj [])
          match handle_call_tool toolName arguments net with
          | .ok result =>
            .jsonResponse 200 (.obj [ ("jsonrpc", .str "2.0"), ("id", msgId)
              , ("result", .obj [("content", .arr (result.map (fun item =>
                  .obj [("type", .str item.type), ("text", .str item.text)])))]) ])
          | .error m =>
            .jsonResponse 200 (errEnvelope msgId (-32603) ("Internal error: " ++ m))
        | v =>
          .jsonResponse 200 (errEnvelope msgId (-32603)
            ("Internal error: '" ++ pyTypeName v ++ "' object has no attribute 'get'"))
      else if isStrEq method "ping" then
        .jsonResponse 200 (.obj [("jsonrpc", .str "2.0"), ("id", msgId), ("result", .obj [])])
      else
        .jsonResponse 200 (errEnvelope msgId (-32601) ("Method not found: " ++ pyStr method))
    | _ => .unhandledFault "AttributeError: the request body is not a JSON object"

/-- Member lookup on a JSON object value (`none` on non-objects). -/
def objGet (v : JsonVal) (k : String) : Option JsonVal :=
  match v with
  | .obj kvs => dictGet kvs k
  | _ => none

/-! ### Helper lemmas -/

lemma strContains_from_head (hay needle : String) (h : needle.data <+: hay.data) :
    strContains hay needle = true := by
  unfold strContains
  rw [List.any_eq_true]
  exact ⟨hay.data, (List.mem_tails _ _).mpr (List.suffix_refl _),
    List.isPrefixOf_iff_prefix.mpr h⟩

lemma strContains_from_part (hay needle : String) (h : needle.data <:+: hay.data) :
    strContains hay needle = true := by
  unfold strContains
  rw [List.any_eq_true]
  obtain ⟨pre, suf, hps⟩ := h
  exact ⟨needle.data ++ suf,
    (List.mem_tails _ _).mpr ⟨pre, by rw [← List.append_assoc, hps]⟩,
    List.isPrefixOf_iff_prefix.mpr (List.prefix_append _ _)⟩

lemma strContains_append₃ (pre mid suf : String) :
    strContains (pre ++ mid ++ suf) mid = true := by
  apply strContains_from_part
  show mid.data <:+: pre.data ++ mid.data ++ suf.data
  exact List.infix_append pre.data mid.data suf.data

/-- Executor `list_repositories` always yields exactly one text item. -/
lemma list_repositories_singleton (u : JsonVal) (net : UpstreamOutcome) :
    ∃ t, list_repositories u net = [t] := by
  cases net <;> simp only [list_repositories] <;> (try split) <;> exact ⟨_, rfl⟩

/-- Executor `get_repository_info` always yields exactly one text item. -/
lemma get_repository_info_singleton (ow rp : JsonVal) (net : UpstreamOutcome) :
    ∃ t, get_repository_info ow rp net = [t] := by
  cases net <;> simp only [get_repository_info] <;> (try split) <;> exact ⟨_, rfl⟩

/-- The `try` body of `get_file_contents` either returns one text item or
raises. -/
lemma getFileContentsTry_shape (ow rp p : JsonVal) (status : Nat) (text : String)
    (json? : Option JsonVal) :
    (∃ t, getFileContentsTry ow rp p status text json? = .ok [t]) ∨
    (∃ m, getFileContentsTry ow rp p status text json? = .error m) := by
  unfold getFileContentsTry
  repeat' split
  all_goals first
    | exact Or.inl ⟨_, rfl⟩
    | exact Or.inr ⟨_, rfl⟩

/-- Executor `get_file_contents` always yields exactly one text item. -/
lemma get_file_contents_singleton (ow rp p : JsonVal) (net : UpstreamOutcome) :
    ∃ t, get_file_contents ow rp p net = [t] := by
  cases net with
  | response status text js =>
    simp only [get_file_contents]
    rcases getFileContentsTry_shape ow rp (normalizePath p) status text js with ⟨t, ht⟩ | ⟨m, hm⟩
    · rw [ht]; exact ⟨t, rfl⟩
    · rw [hm]; exact ⟨_, rfl⟩
  | timeout m => exact ⟨_, rfl⟩
  | transportError m => exact ⟨_, rfl⟩





/-- Dispatch equation of `handle_call_tool` at `list_repositories`. -/
lemma handle_call_tool_lr (kvs : List (String × JsonVal)) (net : UpstreamOutcome) :
    handle_call_tool (.str "list_repositories") (.obj kvs) net =
      .ok (list_repositories (dictGetD kvs "username" .null) net) := rfl

/-- Dispatch equation of `handle_call_tool` at `get_file_contents`. -/
lemma handle_call_tool_gfc (kvs : List (String × JsonVal)) (net : UpstreamOutcome) :
    handle_call_tool (.str "get_file_contents") (.obj kvs) net =
      .ok (get_file_contents (dictGetD kvs "owner" .null) (dictGetD kvs "repo" .null)
        (dictGetD kvs "path" (.str "")) net) := rfl

/-- Dispatch equation of `handle_call_tool` at `get_repository_info`. -/
lemma handle_call_tool_gri (kvs : List (String × JsonVal)) (net : UpstreamOutcome) :
    handle_call_tool (.str "get_repository_info") (.obj kvs) net =
      .ok (get_repository_info (dictGetD kvs "owner" .null) (dictGetD kvs "repo" .null) net) := rfl

/-- C1: for every recognized tool name (list_repositories, get_file_contents,
get_repository_info), any argument dict and every upstream outcome — any
delivered status (2xx, 4xx, 5xx), timeout, transport failure, malformed JSON
body, empty file, base64 decode failure — `handle_call_tool` returns (rather
than raises) a non-empty list of text content items. -/
theorem c1_tool_call_always_nonempty_result (name : String) (kvs : List (String × JsonVal))
    (net : UpstreamOutcome)
    (h : name = "list_repositories" ∨ name = "get_file_contents" ∨ name = "get_repository_info") :
    ∃ l, handle_call_tool (.str name) (.obj kvs) net = .ok l ∧ l ≠ [] := by
  rcases h with rfl | rfl | rfl
  · obtain ⟨t, ht⟩ := list_repositories_singleton (dictGetD kvs "username" .null) net
    exact ⟨[t], by rw [handle_call_tool_lr, ht], by simp⟩
  · obtain ⟨t, ht⟩ := get_file_contents_singleton (dictGetD kvs "owner" .null)
      (dictGetD kvs "repo" .null) (dictGetD kvs "path" (.str "")) net
    exact ⟨[t], by rw [handle_call_tool_gfc, ht], by simp⟩
  · obtain ⟨t, ht⟩ := get_repository_info_singleton (dictGetD kvs "owner" .null)
      (dictGetD kvs "repo" .null) net
    exact ⟨[t], by rw [handle_call_tool_gri, ht], by simp⟩

/-- Witness for C1: a concrete invocation (get_file_contents, upstream 500)
returning one text item. -/
theorem c1_tool_call_always_nonempty_result_witness :
    ∃ l, handle_call_tool (.str "get_file_contents")
        (.obj [("owner", .str "acme"), ("repo", .str "widgets"), ("path", .str "a.txt")])
        (.response 500 "boom" none) = .ok l ∧ l ≠ [] :=
  c1_tool_call_always_nonempty_result "get_file_contents"
    [("owner", .str "acme"), ("repo", .str "widgets"), ("path", .str "a.txt")]
    (.response 500 "boom" none) (Or.inr (Or.inl rfl))

/-- C2 fails on the code: a 204 (2xx) upstream response to
`list_repositories` produces the error-summary text item
`Error: HTTP 204 - ...`, not the success pass-through of the body — the
executors test `status_code != 200`, not membership in 200–299. -/
theorem c2_counterexample_204_is_error :
    (200 ≤ 204 ∧ 204 ≤ 299) ∧
    handle_call_tool (.str "list_repositories") (.obj [("username", .str "octocat")])
        (.response 204 "No Content" (some .null)) =
      .ok [textItem "Error: HTTP 204 - No Content"] ∧
    handle_call_tool (.str "list_repositories") (.obj [("username", .str "octocat")])
        (.response 204 "No Content" (some .null)) ≠
      .ok [textItem "No Content"] := by
  refine ⟨⟨by norm_num, by norm_num⟩, rfl, ?_⟩
  intro h
  rw [handle_call_tool_lr] at h
  have h2 : list_repositories (.str "octocat") (.response 204 "No Content" (some .null)) =
      [textItem "No Content"] := by
    injection h
  exact absurd (congrArg (fun l => (l.headD (textItem "")).text) h2) (by decide)

/-- C2 amended: each tool executor treats exactly status 200 as Success
(body passed through or parsed); every other status — including 2xx
statuses such as 204 — produces the error-summary text item, except the
distinguished 404 branch of get_file_contents. -/
theorem c2_success_is_exactly_status_200 (u ow rp p : JsonVal) (status : Nat) (text : String)
    (js : Option JsonVal) :
    (status ≠ 200 →
      list_repositories u (.response status text js) =
        [textItem ("Error: HTTP " ++ toString status ++ " - " ++ text)]) ∧
    (list_repositories u (.response 200 text js) = [textItem text]) ∧
    (status ≠ 200 →
      get_repository_info ow rp (.response status text js) =
        [textItem ("Error: HTTP " ++ toString status ++ " - " ++ text.take 200)]) ∧
    (get_repository_info ow rp (.response 200 text js) = [textItem text]) ∧
    (status ≠ 200 → status ≠ 404 →
      get_file_contents ow rp p (.response status text js) =
        [textItem ("Error accessing file: HTTP " ++ toString status ++ ". " ++ text.take 200)]) ∧
    (get_file_contents ow rp p (.response 200 text (some (.obj [("content", .str "aGVsbG8="), ("size", .num 5)]))) =
      [textItem "hello"]) := by
  refine ⟨?_, by simp [list_repositories], ?_, by simp [get_repository_info], ?_, rfl⟩
  · intro h
    simp [list_repositories, bne_iff_ne, h]
  · intro h
    simp [get_repository_info, bne_iff_ne, h]
  · intro h200 h404
    simp only [get_file_contents, getFileContentsTry]
    rw [if_neg (by simpa using h404), if_pos (by simpa using h200)]

/-- Witness for C2 amended: a 503 produces the error summary. -/
theorem c2_success_is_exactly_status_200_witness :
    list_repositories (.str "octocat") (.response 503 "unavailable" none) =
      [textItem "Error: HTTP 503 - unavailable"] :=
  (c2_success_is_exactly_status_200 (.str "octocat") .null .null .null 503 "unavailable" none).1
    (by norm_num)

/-- C3: a `tools/call` whose tool name is none of the three registered tools
makes `handle_call_tool` raise, and the dispatcher turns that into a JSON-RPC
error object (code -32603, human-readable message naming the tool) — never a
successful result: its envelope has an `error` member and no `result`
member. -/
theorem c3_unknown_tool_is_protocol_error (kvs pkvs : List (String × JsonVal))
    (net : UpstreamOutcome)
    (hm : dictGetD kvs "method" .null = .str "tools/call")
    (hp : dictGetD kvs "params" (.obj []) = .obj pkvs)
    (h1 : isStrEq (dictGetD pkvs "name" .null) "list_repositories" = false)
    (h2 : isStrEq (dictGetD pkvs "name" .null) "get_file_contents" = false)
    (h3 : isStrEq (dictGetD pkvs "name" .null) "get_repository_info" = false) :
    handle_mcp_request (.ok (.obj kvs)) net =
      .jsonResponse 200 (errEnvelope (dictGetD kvs "id" .null) (-32603)
        ("Internal error: Unknown tool: " ++ pyStr (dictGetD pkvs "name" .null))) ∧
    objGet (errEnvelope (dictGetD kvs "id" .null) (-32603)
        ("Internal error: Unknown tool: " ++ pyStr (dictGetD pkvs "name" .null))) "result" = none ∧
    objGet (errEnvelope (dictGetD kvs "id" .null) (-32603)
        ("Internal error: Unknown tool: " ++ pyStr (dictGetD pkvs "name" .null))) "error" =
      some (.obj [ ("code", .num (-32603))
                 , ("message", .str ("Internal error: Unknown tool: " ++
                     pyStr (dictGetD pkvs "name" .null))) ]) := by
  refine ⟨?_, rfl, rfl⟩
  simp only [handle_mcp_request, hm, hp]
  rw [if_neg (by decide), if_neg (by decide), if_neg (by decide), if_pos (by decide)]
  simp only [handle_call_tool, h1, h2, h3]
  rfl

/-- Witness for C3: calling unregistered tool "nope". -/
theorem c3_unknown_tool_is_protocol_error_witness :
    handle_mcp_request (.ok (.obj [ ("id", .num 1), ("method", .str "tools/call")
                                  , ("params", .obj [("name", .str "nope")]) ])) (.timeout "t") =
      .jsonResponse 200 (errEnvelope (.num 1) (-32603) "Internal error: Unknown tool: nope") :=
  (c3_unknown_tool_is_protocol_error
    [("id", .num 1), ("method", .str "tools/call"), ("params", .obj [("name", .str "nope")])]
    [("name", .str "nope")] (.timeout "t") rfl rfl rfl rfl rfl).1

/-- C4: a parseable JSON-object request whose method is none of the five
recognized methods gets a JSON-RPC error, code -32601, whose message embeds
the offending method name, at HTTP status 200. -/
theorem c4_unknown_method_minus32601 (kvs : List (String × JsonVal)) (net : UpstreamOutcome)
    (h1 : isStrEq (dictGetD kvs "method" .null) "initialize" = false)
    (h2 : isStrEq (dictGetD kvs "method" .null) "notifications/initialized" = false)
    (h3 : isStrEq (dictGetD kvs "method" .null) "tools/list" = false)
    (h4 : isStrEq (dictGetD kvs "method" .null) "tools/call" = false)
    (h5 : isStrEq (dictGetD kvs "method" .null) "ping" = false) :
    handle_mcp_request (.ok (.obj kvs)) net =
      .jsonResponse 200 (errEnvelope (dictGetD kvs "id" .null) (-32601)
        ("Method not found: " ++ pyStr (dictGetD kvs "method" .null))) ∧
    strContains ("Method not found: " ++ pyStr (dictGetD kvs "method" .null))
      (pyStr (dictGetD kvs "method" .null)) = true := by
  constructor
  · simp only [handle_mcp_request, h1, h2, h3, h4, h5, Bool.false_eq_true, if_false]
  · exact strContains_from_part _ _ (List.suffix_append _ _).isInfix

/-- Witness for C4: method "bogus" with id 1. -/
theorem c4_unknown_method_minus32601_witness :
    handle_mcp_request (.ok (.obj [("id", .num 1), ("method", .str "bogus")])) (.timeout "t") =
      .jsonResponse 200 (errEnvelope (.num 1) (-32601) "Method not found: bogus") :=
  (c4_unknown_method_minus32601 [("id", .num 1), ("method", .str "bogus")] (.timeout "t")
    rfl rfl rfl rfl rfl).1

/-- Prefix transport across a string append. -/
lemma prefix_str_append (p q r : String) (h : p.data <+: q.data) : p.data <+: (q ++ r).data :=
  h.trans (List.prefix_append _ _)

/-- The directory-listing comprehension on well-formed entries: one
`- {name} ({type})` line per entry, in order. -/
lemma dirLines_map (entries : List (String × String)) :
    dirLines (entries.map (fun e => .obj [("name", .str e.1), ("type", .str e.2)])) =
      .ok (entries.map (fun e => "- " ++ e.1 ++ " (" ++ e.2 ++ ")")) := by
  induction entries with
  | nil => rfl
  | cons e rest ih =>
    simp only [List.map_cons, dirLines]
    rw [show pySubscript (.obj [("name", .str e.1), ("type", .str e.2)]) "name" =
          .ok (.str e.1) from rfl,
        show pySubscript (.obj [("name", .str e.1), ("type", .str e.2)]) "type" =
          .ok (.str e.2) from rfl,
        ih]
    rfl

/-- C5 amended: `get_file_contents` with path `""` or `"/"` requests the
repository root URL (`/repos/{owner}/{repo}/contents/` with empty path), and
a status-200 directory listing yields one text item: the
`Directory contents of root:` header followed by one `- {name} ({type})`
line per entry in upstream order.  (The original claim said every 2xx body
is listed; 2xx statuses other than 200 take the error-summary branch — see
the C5 counterexample.) -/
theorem c5_root_directory_listing (ow rp text : String) (p0 : JsonVal)
    (entries : List (String × String))
    (hp : p0 = .str "" ∨ p0 = .str "/") :
    getFileContentsUrl (.str ow) (.str rp) (normalizePath p0) =
      "https://api.github.com/repos/" ++ ow ++ "/" ++ rp ++ "/contents/" ∧
    handle_call_tool (.str "get_file_contents")
        (.obj [("owner", .str ow), ("repo", .str rp), ("path", p0)])
        (.response 200 text (some (.arr (entries.map (fun e =>
          .obj [("name", .str e.1), ("type", .str e.2)]))))) =
      .ok [textItem ("Directory contents of root:\n" ++
        String.intercalate "\n" (entries.map (fun e => "- " ++ e.1 ++ " (" ++ e.2 ++ ")")))] := by
  have hnorm : normalizePath p0 = .str "" := by
    rcases hp with rfl | rfl <;> rfl
  constructor
  · rw [show getFileContentsUrl (.str ow) (.str rp) (normalizePath p0) =
        "https://api.github.com/repos/" ++ ow ++ "/" ++ rp ++ "/contents/" ++
          pyStr (normalizePath p0) from rfl, hnorm]
    exact String.append_empty _
  · rw [handle_call_tool_gfc]
    show Except.ok (get_file_contents (.str ow) (.str rp) p0
      (.response 200 text (some (.arr (entries.map (fun e =>
        .obj [("name", .str e.1), ("type", .str e.2)])))))) = _
    simp only [get_file_contents, hnorm, getFileContentsTry]
    rw [if_neg (by decide), if_neg (by decide), dirLines_map]
    rfl

/-- Witness for C5: the spec's concrete example — entries a.txt (file) and
src (dir) at the root give exactly the three expected lines. -/
theorem c5_root_directory_listing_witness :
    handle_call_tool (.str "get_file_contents")
        (.obj [("owner", .str "acme"), ("repo", .str "widgets"), ("path", .str "/")])
        (.response 200 "" (some (.arr [ .obj [("name", .str "a.txt"), ("type", .str "file")]
                                      , .obj [("name", .str "src"), ("type", .str "dir")] ]))) =
      .ok [textItem "Directory contents of root:\n- a.txt (file)\n- src (dir)"] := by
  have h := (c5_root_directory_listing "acme" "widgets" "" (.str "/")
    [("a.txt", "file"), ("src", "dir")] (Or.inr rfl)).2
  exact h.trans (by rfl)

/-- The file-with-`content` branch of `get_file_contents` on a 200 response:
empty check first, then base64+UTF-8 decode with in-band error reporting. -/
lemma gfc_file_branch (ow rp : String) (p0 : JsonVal) (text : String)
    (kvs : List (String × JsonVal)) (c : JsonVal) (hc : dictGet kvs "content" = some c) :
    handle_call_tool (.str "get_file_contents")
        (.obj [("owner", .str ow), ("repo", .str rp), ("path", p0)])
        (.response 200 text (some (.obj kvs))) =
      .ok (if pyEqZero (dictGetD kvs "size" (.num 0)) then
            [textItem ("File exists but is empty: " ++ pyStr (normalizePath p0))]
          else
            match pyB64DecodeUtf8 c with
            | .ok content => [textItem content]
            | .error e => [textItem ("Error decoding file content: " ++ e)]) := by
  rw [handle_call_tool_gfc]
  show Except.ok (get_file_contents (.str ow) (.str rp) p0
    (.response 200 text (some (.obj kvs)))) = _
  simp only [get_file_contents, getFileContentsTry]
  rw [if_neg (by decide), if_neg (by decide), hc]
  rw [if_pos (show (some c).isSome = true from rfl)]
  by_cases hz : pyEqZero (dictGetD kvs "size" (.num 0)) = true
  · rw [if_pos hz, if_pos hz]
  · rw [if_neg hz, if_neg hz]
    show Except.ok (match (match pyB64DecodeUtf8 c with
        | .ok content => Except.ok [textItem content]
        | .error e => Except.ok [textItem ("Error decoding file content: " ++ e)] :
          Except String (List TextContent)) with
      | .ok r => r
      | .error m => [textItem ("Error: " ++ m)]) = _
    cases hd : pyB64DecodeUtf8 c <;> rfl

/-- C6 amended: for a `get_file_contents` status-200 single-entry body with
a `content` field — declared size 0 yields the "file exists but is empty"
item with no decode attempt (the result is independent of the content
value); a nonzero size decodes the content as base64 then UTF-8 and returns
it verbatim (in particular `"aGVsbG8="` yields exactly `hello`); a decode
failure yields a text item describing the error, not a fault.  (The original
claim said any 2xx; 2xx statuses other than 200 take the error-summary
branch — see the C6 counterexample.) -/
theorem c6_file_content_decode (ow rp text : String) (p0 : JsonVal)
    (kvs : List (String × JsonVal)) (c : JsonVal)
    (hc : dictGet kvs "content" = some c) :
    (pyEqZero (dictGetD kvs "size" (.num 0)) = true →
      handle_call_tool (.str "get_file_contents")
          (.obj [("owner", .str ow), ("repo", .str rp), ("path", p0)])
          (.response 200 text (some (.obj kvs))) =
        .ok [textItem ("File exists but is empty: " ++ pyStr (normalizePath p0))]) ∧
    (∀ d, pyEqZero (dictGetD kvs "size" (.num 0)) = false → pyB64DecodeUtf8 c = .ok d →
      handle_call_tool (.str "get_file_contents")
          (.obj [("owner", .str ow), ("repo", .str rp), ("path", p0)])
          (.response 200 text (some (.obj kvs))) =
        .ok [textItem d]) ∧
    (∀ e, pyEqZero (dictGetD kvs "size" (.num 0)) = false → pyB64DecodeUtf8 c = .error e →
      handle_call_tool (.str "get_file_contents")
          (.obj [("owner", .str ow), ("repo", .str rp), ("path", p0)])
          (.response 200 text (some (.obj kvs))) =
        .ok [textItem ("Error decoding file content: " ++ e)]) ∧
    pyB64DecodeUtf8 (.str "aGVsbG8=") = .ok "hello" := by
  refine ⟨?_, ?_, ?_, rfl⟩
  · intro hz
    rw [gfc_file_branch ow rp p0 text kvs c hc, if_pos hz]
  · intro d hz hd
    rw [gfc_file_branch ow rp p0 text kvs c hc, if_neg (by simp [hz]), hd]
  · intro e hz he
    rw [gfc_file_branch ow rp p0 text kvs c hc, if_neg (by simp [hz]), he]

/-- Witness for C6: size 5 with content aGVsbG8= gives "hello"; size 0 gives
the empty-file message; an unpadded base64 string gives the decode-error
item. -/
theorem c6_file_content_decode_witness :
    handle_call_tool (.str "get_file_contents")
        (.obj [("owner", .str "a"), ("repo", .str "b"), ("path", .str "f.txt")])
        (.response 200 "" (some (.obj [("content", .str "aGVsbG8="), ("size", .num 5)]))) =
      .ok [textItem "hello"] ∧
    handle_call_tool (.str "get_file_contents")
        (.obj [("owner", .str "a"), ("repo", .str "b"), ("path", .str "f.txt")])
        (.response 200 "" (some (.obj [("content", .str "aGVsbG8="), ("size", .num 0)]))) =
      .ok [textItem "File exists but is empty: f.txt"] ∧
    handle_call_tool (.str "get_file_contents")
        (.obj [("owner", .str "a"), ("repo", .str "b"), ("path", .str "f.txt")])
        (.response 200 "" (some (.obj [("content", .str "aGVsbG8"), ("size", .num 7)]))) =
      .ok [textItem "Error decoding file content: Incorrect padding"] := by
  refine ⟨?_, ?_, ?_⟩
  · exact ((c6_file_content_decode "a" "b" "" (.str "f.txt")
      [("content", .str "aGVsbG8="), ("size", .num 5)] (.str "aGVsbG8=") rfl).2.1
      "hello" rfl rfl)
  · exact (((c6_file_content_decode "a" "b" "" (.str "f.txt")
      [("content", .str "aGVsbG8="), ("size", .num 0)] (.str "aGVsbG8=") rfl).1 rfl)).trans
      (by rfl)
  · exact ((c6_file_content_decode "a" "b" "" (.str "f.txt")
      [("content", .str "aGVsbG8"), ("size", .num 7)] (.str "aGVsbG8") rfl).2.2.1
      "Incorrect padding" rfl rfl)

/-- C7: an upstream 404 on `get_file_contents` yields a ToolResult whose sole
text item names the missing path (or "root") and the owner/repo pair and
contains the substring "File not found" — never a JSON-RPC error (the result
is an `Except.ok`). -/
theorem c7_404_yields_file_not_found_item (ow rp text : String) (p0 : JsonVal)
    (js : Option JsonVal) :
    ∃ t, handle_call_tool (.str "get_file_contents")
        (.obj [("owner", .str ow), ("repo", .str rp), ("path", p0)])
        (.response 404 text js) = .ok [textItem t] ∧
      t = "File not found: " ++ pyStr (pyOr (normalizePath p0) (.str "root")) ++ " in " ++
        ow ++ "/" ++ rp ++ ". The file may not exist or the repository may be private." ∧
      strContains t "File not found" = true ∧
      strContains t ow = true ∧
      strContains t rp = true ∧
      strContains t (pyStr (pyOr (normalizePath p0) (.str "root"))) = true := by
  refine ⟨"File not found: " ++ pyStr (pyOr (normalizePath p0) (.str "root")) ++ " in " ++
    ow ++ "/" ++ rp ++ ". The file may not exist or the repository may be private.",
    ?_, rfl, ?_, ?_, ?_, ?_⟩
  · rw [handle_call_tool_gfc]
    show Except.ok (get_file_contents (.str ow) (.str rp) p0 (.response 404 text js)) = _
    simp only [get_file_contents, getFileContentsTry]
    rw [if_pos (by decide)]
    rfl
  · apply strContains_from_head
    exact prefix_str_append _ _ _ (prefix_str_append _ _ _ (prefix_str_append _ _ _
      (prefix_str_append _ _ _ (prefix_str_append _ _ _ (prefix_str_append _ _ _ (by decide))))))
  · rw [show "File not found: " ++ pyStr (pyOr (normalizePath p0) (.str "root")) ++ " in " ++
        ow ++ "/" ++ rp ++ ". The file may not exist or the repository may be private." =
      ("File not found: " ++ (pyStr (pyOr (normalizePath p0) (.str "root")) ++ " in ")) ++ ow ++
        ("/" ++ (rp ++ ". The file may not exist or the repository may be private.")) by
      simp only [String.append_assoc]]
    exact strContains_append₃ _ _ _
  · rw [show "File not found: " ++ pyStr (pyOr (normalizePath p0) (.str "root")) ++ " in " ++
        ow ++ "/" ++ rp ++ ". The file may not exist or the repository may be private." =
      ("File not found: " ++ pyStr (pyOr (normalizePath p0) (.str "root")) ++ " in " ++ ow ++ "/") ++
        rp ++ ". The file may not exist or the repository may be private." from rfl]
    exact strContains_append₃ _ _ _
  · rw [show "File not found: " ++ pyStr (pyOr (normalizePath p0) (.str "root")) ++ " in " ++
        ow ++ "/" ++ rp ++ ". The file may not exist or the repository may be private." =
      "File not found: " ++ pyStr (pyOr (normalizePath p0) (.str "root")) ++
        (" in " ++ (ow ++ ("/" ++ (rp ++ ". The file may not exist or the repository may be private.")))) by
      simp only [String.append_assoc]]
    exact strContains_append₃ _ _ _

/-- C10 amended: a status-200 single-entry body with a `content` field but
no `size` field is reported as an empty file — `data.get("size", 0)`
defaults to 0 — and the content is never base64-decoded, whatever it holds.
(The original claim said any 2xx; 2xx statuses other than 200 take the
error-summary branch — see the C10 counterexample.) -/
theorem c10_missing_size_defaults_to_empty (ow rp text : String) (p0 : JsonVal)
    (kvs : List (String × JsonVal)) (c : JsonVal)
    (hc : dictGet kvs "content" = some c) (hs : dictGet kvs "size" = none) :
    handle_call_tool (.str "get_file_contents")
        (.obj [("owner", .str ow), ("repo", .str rp), ("path", p0)])
        (.response 200 text (some (.obj kvs))) =
      .ok [textItem ("File exists but is empty: " ++ pyStr (normalizePath p0))] := by
  rw [gfc_file_branch ow rp p0 text kvs c hc, if_pos (by rw [dictGetD, hs]; rfl)]

/-- Witness for C10: a non-empty base64 content with no size field still
reports "File exists but is empty". -/
theorem c10_missing_size_defaults_to_empty_witness :
    handle_call_tool (.str "get_file_contents")
        (.obj [("owner", .str "a"), ("repo", .str "b"), ("path", .str "f.txt")])
        (.response 200 "" (some (.obj [("content", .str "aGVsbG8=")]))) =
      .ok [textItem "File exists but is empty: f.txt"] :=
  (c10_missing_size_defaults_to_empty "a" "b" "" (.str "f.txt")
    [("content", .str "aGVsbG8=")] (.str "aGVsbG8=") rfl rfl).trans (by rfl)

/-- C8 fails on the code: `username` is flagged required in the
list_repositories schema, yet an invocation with no `username` argument
proceeds as if valid — `arguments.get("username")` yields None, the upstream
URL becomes `/users/None/repos`, and a 200 body is passed through exactly as
for a valid invocation.  Nothing in the core checks required-parameter
presence. -/
theorem c8_counterexample_missing_username_proceeds :
    requiredParams "list_repositories" = ["username"] ∧
    dictGet [] "username" = none ∧
    handle_call_tool (.str "list_repositories") (.obj []) (.response 200 "[]" (some (.arr []))) =
      .ok [textItem "[]"] ∧
    listRepositoriesUrl (dictGetD [] "username" .null) =
      "https://api.github.com/users/None/repos" :=
  ⟨rfl, rfl, rfl, rfl⟩

/-- C8 amended: required-parameter presence is not enforced for any tool.
For each of the three tools, an invocation missing its schema-required
parameters proceeds exactly as if each were None (a missing `path` defaults
to the empty string): the upstream URL interpolates the literal `None` and
the executor runs normally on the upstream outcome.  Only the catalog's
`required` arrays document the requirements. -/
theorem c8_amended_missing_param_proceeds_as_none (kvs : List (String × JsonVal))
    (net : UpstreamOutcome) :
    (dictGet kvs "username" = none →
      handle_call_tool (.str "list_repositories") (.obj kvs) net =
        .ok (list_repositories .null net) ∧
      listRepositoriesUrl (dictGetD kvs "username" .null) =
        "https://api.github.com/users/None/repos") ∧
    (dictGet kvs "owner" = none → dictGet kvs "repo" = none → dictGet kvs "path" = none →
      handle_call_tool (.str "get_file_contents") (.obj kvs) net =
        .ok (get_file_contents .null .null (.str "") net) ∧
      getFileContentsUrl (dictGetD kvs "owner" .null) (dictGetD kvs "repo" .null)
          (normalizePath (dictGetD kvs "path" (.str ""))) =
        "https://api.github.com/repos/None/None/contents/") ∧
    (dictGet kvs "owner" = none → dictGet kvs "repo" = none →
      handle_call_tool (.str "get_repository_info") (.obj kvs) net =
        .ok (get_repository_info .null .null net) ∧
      getRepositoryInfoUrl (dictGetD kvs "owner" .null) (dictGetD kvs "repo" .null) =
        "https://api.github.com/repos/None/None") ∧
    requiredParams "list_repositories" = ["username"] ∧
    requiredParams "get_file_contents" = ["owner", "repo", "path"] ∧
    requiredParams "get_repository_info" = ["owner", "repo"] := by
  refine ⟨?_, ?_, ?_, rfl, rfl, rfl⟩
  · intro h
    constructor
    · rw [handle_call_tool_lr]
      simp only [dictGetD, h, Option.getD_none]
    · simp only [dictGetD, h, Option.getD_none]
      rfl
  · intro h1 h2 h3
    constructor
    · rw [handle_call_tool_gfc]
      simp only [dictGetD, h1, h2, h3, Option.getD_none]
    · simp only [dictGetD, h1, h2, h3, Option.getD_none]
      rfl
  · intro h1 h2
    constructor
    · rw [handle_call_tool_gri]
      simp only [dictGetD, h1, h2, Option.getD_none]
    · simp only [dictGetD, h1, h2, Option.getD_none]
      rfl

/-- Witness for C8 amended: with an empty argument dict, all three tools
proceed on their upstream outcome and request None-interpolated URLs. -/
theorem c8_amended_missing_param_proceeds_as_none_witness :
    (handle_call_tool (.str "list_repositories") (.obj [])
        (.response 200 "[]" (some (.arr []))) =
      .ok (list_repositories .null (.response 200 "[]" (some (.arr [])))) ∧
     listRepositoriesUrl (dictGetD [] "username" .null) =
      "https://api.github.com/users/None/repos") ∧
    (handle_call_tool (.str "get_file_contents") (.obj [])
        (.response 200 "[]" (some (.arr []))) =
      .ok (get_file_contents .null .null (.str "") (.response 200 "[]" (some (.arr []))))) ∧
    (handle_call_tool (.str "get_repository_info") (.obj [])
        (.response 200 "[]" (some (.arr []))) =
      .ok (get_repository_info .null .null (.response 200 "[]" (some (.arr []))))) :=
  ⟨(c8_amended_missing_param_proceeds_as_none [] (.response 200 "[]" (some (.arr [])))).1 rfl,
   ((c8_amended_missing_param_proceeds_as_none [] (.response 200 "[]" (some (.arr [])))).2.1
     rfl rfl rfl).1,
   ((c8_amended_missing_param_proceeds_as_none [] (.response 200 "[]" (some (.arr [])))).2.2.1
     rfl rfl).1⟩

/-- C9 fails on the code: the acknowledgment of `notifications/initialized`
is `{"jsonrpc": "2.0"}` with no `id` member at all, even when the request
carried `id` 5 — so not every response to a parseable request echoes the
request's id. -/
theorem c9_counterexample_notifications_ack_has_no_id :
    handle_mcp_request (.ok (.obj [ ("jsonrpc", .str "2.0"), ("id", .num 5)
                                  , ("method", .str "notifications/initialized") ])) (.timeout "t") =
      .jsonResponse 200 (.obj [("jsonrpc", .str "2.0")]) ∧
    objGet (.obj [("jsonrpc", .str "2.0")]) "id" = none :=
  ⟨rfl, rfl⟩

/-- C9 amended: for every request body that parses as a JSON object and whose
method is not `notifications/initialized`, the response body's `id` member
equals the request's `id` (JSON null when the request has none); an
unparseable body gets the -32603 envelope with a null id.  The
`notifications/initialized` acknowledgment carries no id. -/
theorem c9_amended_id_echo (kvs : List (String × JsonVal)) (net : UpstreamOutcome) (m : String)
    (h : isStrEq (dictGetD kvs "method" .null) "notifications/initialized" = false) :
    (∃ b, handle_mcp_request (.ok (.obj kvs)) net = .jsonResponse 200 b ∧
      objGet b "id" = some (dictGetD kvs "id" .null)) ∧
    handle_mcp_request (.error m) net =
      .jsonResponse 200 (errEnvelope .null (-32603) ("Internal error: " ++ m)) := by
  refine ⟨?_, rfl⟩
  simp only [handle_mcp_request]
  by_cases h1 : isStrEq (dictGetD kvs "method" .null) "initialize" = true
  · rw [if_pos h1]; exact ⟨_, rfl, rfl⟩
  · rw [if_neg h1, if_neg (by simp [h])]
    by_cases h3 : isStrEq (dictGetD kvs "method" .null) "tools/list" = true
    · rw [if_pos h3]; exact ⟨_, rfl, rfl⟩
    · rw [if_neg h3]
      by_cases h4 : isStrEq (dictGetD kvs "method" .null) "tools/call" = true
      · rw [if_pos h4]
        split
        · split <;> exact ⟨_, rfl, rfl⟩
        · exact ⟨_, rfl, rfl⟩
      · rw [if_neg h4]
        by_cases h5 : isStrEq (dictGetD kvs "method" .null) "ping" = true
        · rw [if_pos h5]; exact ⟨_, rfl, rfl⟩
        · rw [if_neg h5]; exact ⟨_, rfl, rfl⟩

/-- Witness for C9 amended: a ping with id 7 echoes id 7; parse failure
"boom" yields the null-id -32603 envelope. -/
theorem c9_amended_id_echo_witness :
    (∃ b, handle_mcp_request (.ok (.obj [("method", .str "ping"), ("id", .num 7)]))
        (.timeout "t") = .jsonResponse 200 b ∧
      objGet b "id" = some (dictGetD [("method", .str "ping"), ("id", .num 7)] "id" .null)) ∧
    handle_mcp_request (.error "boom") (.timeout "t") =
      .jsonResponse 200 (errEnvelope .null (-32603) "Internal error: boom") :=
  c9_amended_id_echo [("method", .str "ping"), ("id", .num 7)] (.timeout "t") "boom" rfl

set_option maxRecDepth 8192

/-- C5 fails on the code as originally stated: a 201 — a 2xx status — with
the spec's ordered directory listing in the body does not yield the listing
text; `get_file_contents` tests `status_code != 200` and returns the
error-summary item instead. -/
theorem c5_counterexample_2xx_list_is_error :
    (200 ≤ 201 ∧ 201 ≤ 299) ∧
    handle_call_tool (.str "get_file_contents")
        (.obj [("owner", .str "acme"), ("repo", .str "widgets"), ("path", .str "/")])
        (.response 201 "Created" (some (.arr [ .obj [("name", .str "a.txt"), ("type", .str "file")]
                                             , .obj [("name", .str "src"), ("type", .str "dir")] ]))) =
      .ok [textItem "Error accessing file: HTTP 201. Created"] ∧
    textItem "Error accessing file: HTTP 201. Created" ≠
      textItem "Directory contents of root:\n- a.txt (file)\n- src (dir)" :=
  ⟨⟨by norm_num, by norm_num⟩, rfl, by decide⟩

/-- C6 fails on the code as originally stated: a 206 — a 2xx status — with a
content entry of nonzero size does not return the decoded text;
`get_file_contents` tests `status_code != 200` and returns the error-summary
item instead of decoding. -/
theorem c6_counterexample_2xx_content_is_error :
    (200 ≤ 206 ∧ 206 ≤ 299) ∧
    handle_call_tool (.str "get_file_contents")
        (.obj [("owner", .str "a"), ("repo", .str "b"), ("path", .str "f.txt")])
        (.response 206 "Partial" (some (.obj [("content", .str "aGVsbG8="), ("size", .num 5)]))) =
      .ok [textItem "Error accessing file: HTTP 206. Partial"] ∧
    textItem "Error accessing file: HTTP 206. Partial" ≠ textItem "hello" :=
  ⟨⟨by norm_num, by norm_num⟩, rfl, by decide⟩

/-- C10 fails on the code as originally stated: a 226 — a 2xx status — with
a content-but-no-size entry does not report the file as empty;
`get_file_contents` tests `status_code != 200` and returns the error-summary
item instead. -/
theorem c10_counterexample_2xx_missing_size_is_error :
    (200 ≤ 226 ∧ 226 ≤ 299) ∧
    handle_call_tool (.str "get_file_contents")
        (.obj [("owner", .str "a"), ("repo", .str "b"), ("path", .str "f.txt")])
        (.response 226 "IM Used" (some (.obj [("content", .str "aGVsbG8=")]))) =
      .ok [textItem "Error accessing file: HTTP 226. IM Used"] ∧
    textItem "Error accessing file: HTTP 226. IM Used" ≠
      textItem "File exists but is empty: f.txt" :=
  ⟨⟨by norm_num, by norm_num⟩, rfl, by decide⟩
